import Mathlib

/-!
Shallow embedding of the extraction engine of `tap_precoro`
(`src/tap_precoro/client.py` and `src/tap_precoro/streams.py`).

Conventions of the embedding:
  * timestamps are modelled as integer epoch seconds (`Int`); the float
    `total_seconds()` of the source is modelled at second granularity;
  * Python `None` is `Option.none`; a dictionary field read with `.get`
    is an `Option` field of a structure;
  * code that can raise returns `Except PyExc`; a blanket
    `except Exception` corresponds to handling every `PyExc` value;
  * `logger.error/warning/info` calls are collected in a `List String`
    (apostrophes of the original messages are elided).
-/

/-- Python exceptions raised by the modelled code paths. `fatalAPIError` and
`retriableAPIError` are the singer-sdk classes imported by `client.py`; both
derive from `Exception`, so a blanket `except Exception` catches them. -/
inductive PyExc where
  | fatalAPIError (msg : String)
  | retriableAPIError (msg : String)
  | jsonDecodeError
  | parseError
  | typeError (msg : String)
  | unboundLocalError (name : String)
  | userError (msg : String)
deriving DecidableEq

/-- The parsed JSON body of a response as read by
`PrecoroStream.validate_response` (client.py lines 112-119): the two fields
the code looks at. `rateLimitRetryAfter` is the epoch-seconds value of a
`RateLimit-Retry-After` string that `pendulum.from_format` parses; it is
`none` when the field is missing or malformed (either makes line 119 raise). -/
structure RetryInfo where
  rateLimitType : Option String
  rateLimitRetryAfter : Option Int
deriving DecidableEq

/-- An HTTP response as far as `validate_response` inspects it.
`textHasRateLimitType` is the substring test `'RateLimit-Type' in
response.text` of line 109; `json` is `response.json()`, `none` when JSON
decoding raises. -/
structure HttpResponse where
  status_code : Nat
  textHasRateLimitType : Bool
  json : Option RetryInfo
deriving DecidableEq

/-- What a call to `validate_response` does: raise an exception after sleeping
`sleptSeconds` (the `time.sleep(seconds_to_wait)` of line 126; 0 when no sleep
happened), or fall through to `super().validate_response(response)` (line 128,
singer-sdk code outside this repository). -/
inductive ValidateOutcome where
  | raised (e : PyExc) (sleptSeconds : Int)
  | delegated
deriving DecidableEq

/-- Outcome of `validate_response` together with the log lines it wrote. -/
structure ValidateResult where
  outcome : ValidateOutcome
  logs : List String
deriving DecidableEq

/-- `PrecoroStream.validate_response` (client.py lines 108-128), at current
time `now` (epoch seconds).

The `try` block of lines 111-121 is modelled as an `Except PyExc Int`
computing `seconds_to_wait`, paired with the log lines written inside it.
The `raise FatalAPIError` of line 116 happens inside that `try`, so the
blanket `except Exception as e` of line 122 catches it like any other
exception; control then reaches lines 125-127 unconditionally, which sleep
and raise `RetriableAPIError`. Lines 120-121 compute
`max((retry_after - now).total_seconds(), 1)`. -/
def validate_response (now : Int) (response : HttpResponse) : ValidateResult :=
  if response.status_code = 429 ∧ response.textHasRateLimitType = true then
    let tryBlock : Except PyExc Int × List String :=
      match response.json with
      | none => (.error .jsonDecodeError, [])
      | some retry_info_json =>
        if retry_info_json.rateLimitType = some "Daily limiter" then
          (.error (.fatalAPIError "Daily rate limit hit. Exiting."),
           ["Daily rate limit hit. Exiting."])
        else
          match retry_info_json.rateLimitRetryAfter with
          | none => (.error .parseError, [])
          | some retry_after => (.ok (max (retry_after - now) 1), [])
    match tryBlock with
    | (.ok seconds_to_wait, ls) =>
      ⟨.raised (.retriableAPIError "Rate limit exceeded") seconds_to_wait,
       ls ++ ["Waiting " ++ toString seconds_to_wait ++ " seconds before retrying"]⟩
    | (.error _e, ls) =>
      ⟨.raised (.retriableAPIError "Rate limit exceeded") 1,
       ls ++ ["Could not parse retry info", "Error parsing retry info",
              "Waiting 1 seconds before retrying"]⟩
  else ⟨.delegated, []⟩

/-- The pagination metadata `resp["meta"]["pagination"]` read by
`PrecoroStream.get_next_page_token` (client.py lines 56-59). -/
structure Pagination where
  current_page : Nat
  total_pages : Nat
deriving DecidableEq

/-- A response body as far as `get_next_page_token` inspects it: `meta` is
`some` exactly when the body has a "meta" key. -/
structure PageResponse where
  meta : Option Pagination
deriving DecidableEq

/-- `PrecoroStream.get_next_page_token` (client.py lines 51-67). The mutable
instance attribute `self.page` (a Python int or `None`, initialised to 1 on
line 19) is passed in and the updated value returned alongside the returned
token: the result is `(new self.page, returned token)`. When the body has no
"meta" key the function returns `None` on line 65 without touching
`self.page`. When `self.page` is `None`, the `self.page += 1` of line 63
raises `TypeError`. `previous_token` is accepted but never read by the
source. -/
def get_next_page_token (page : Option Nat) (response : PageResponse)
    (previous_token : Option Nat) : Except PyExc (Option Nat × Option Nat) :=
  match response.meta with
  | none => .ok (page, none)
  | some pagination =>
    if pagination.current_page = pagination.total_pages then
      .ok (none, none)
    else
      match page with
      | none => .error (.typeError "unsupported operand types for +=: NoneType and int")
      | some n => .ok (some (n + 1), some (n + 1))

/-- The pagination loop of the REST stream driver (singer-sdk
`request_records`, outside this repository): one request is issued per
response consumed, `get_next_page_token` is asked for the next token, and the
loop finishes when the token is falsy (Python `None` or `0`). Returns the
number of pages fetched, threading `self.page` through the calls. -/
def runPages (page : Option Nat) (previous_token : Option Nat) :
    List PageResponse → Except PyExc Nat
  | [] => .ok 0
  | r :: rs =>
    match get_next_page_token page r previous_token with
    | .error e => .error e
    | .ok (page1, token) =>
      match token with
      | none => .ok 1
      | some 0 => .ok 1
      | some (t + 1) =>
        match runPages page1 (some (t + 1)) rs with
        | .error e => .error e
        | .ok n => .ok (n + 1)

/-- A run of responses reporting `current_page = c, c + 1, ...` (`n` of them),
each with the same `total_pages = tp`. -/
def increasingPages (tp : Nat) : Nat → Nat → List PageResponse
  | _, 0 => []
  | c, n + 1 => ⟨some ⟨c, tp⟩⟩ :: increasingPages tp (c + 1) n

/-- The response sequence of C3: pages 1, 2, ..., tp, strictly increasing up
to `total_pages = tp`. -/
def pageSeq (tp : Nat) : List PageResponse := increasingPages tp 1 tp

/-- `PrecoroStream.get_starting_time` (client.py lines 69-74). `start_date`
is the configured "start_date" already parsed to epoch seconds
(`pendulum.parse`, outside this repository); `rep_key` is
`self.get_starting_timestamp(context)`, the persisted replication-key
bookmark read through the singer-sdk (outside this repository). The source
returns `rep_key or start_date`; datetimes are always truthy in Python, so
only `None` selects the right operand. -/
def get_starting_time (start_date rep_key : Option Int) : Option Int :=
  match rep_key with
  | some v => some v
  | none => start_date

/-- The URL query parameters built by `get_url_params`: `page` and
`modifiedSince` (the latter holds the timestamp that line 86 formats with
`strftime`). -/
structure UrlParams where
  page : Option Nat
  modifiedSince : Option Int
deriving DecidableEq

/-- `PrecoroStream.get_url_params` (client.py lines 76-87).
`replication_key` says whether `self.replication_key` is set (truthy) for the
stream. Line 81 tests `if next_page_token:`, so a token of `0` is falsy. -/
def get_url_params (replication_key : Bool) (start_date rep_key : Option Int)
    (next_page_token : Option Nat) : UrlParams :=
  let page : Option Nat :=
    match next_page_token with
    | some t => if t = 0 then none else some t
    | none => none
  let sd := get_starting_time start_date rep_key
  let modifiedSince : Option Int :=
    if replication_key = true ∧ sd ≠ none then sd else none
  ⟨page, modifiedSince⟩

/-- A concrete 429 response whose body reports the daily limiter, with a
far-future retry-after value. -/
def dailyLimiterResponse : HttpResponse :=
  { status_code := 429
    textHasRateLimitType := true
    json := some { rateLimitType := some "Daily limiter"
                   rateLimitRetryAfter := some 4102444800 } }

/-- Model of `PrecoroStream._request` (client.py lines 101-106): the body is
`time.sleep(1)` followed by the parent-class send. Entering `_request` at
time `entry` (epoch seconds), the outbound send happens at `entry + 1`. -/
def requestSendTime (entry : Int) : Int := entry + 1

/-- The wait `_request` imposes between being entered and its send. -/
def waitBeforeSend (entry : Int) : Int := requestSendTime entry - entry

/-- Send times of a sequential run of `_request` calls: the driver enters the
first call at `t0`; after each send the response arrives `d` seconds later
(`d ≥ 0`, one entry of `ds` per request) and the next call is entered
immediately. -/
def sendTimes (t0 : Int) : List Int → List Int
  | [] => []
  | d :: ds => requestSendTime t0 :: sendTimes (requestSendTime t0 + d) ds

/-- One entry of `row["dataDocumentCustomFields"]["data"]` as the export
condition filter reads it: `documentCustomFieldId` is
`dcf.get("documentCustomField", {}).get("id")` (`none` when either key is
missing) and `value` is `dcf.get("value")`. -/
structure DocumentCustomField where
  documentCustomFieldId : Option Int
  value : Option String
deriving DecidableEq

/-- An invoice record as far as `InvoicesStream.post_process` inspects it.
`dataDocumentCustomFieldsData` is `row.get("dataDocumentCustomFields",
{}).get("data")`: `none` when the row has no such key (the default `{}` then
yields Python `None`, and the list comprehension of streams.py lines 129-133
iterating it raises `TypeError`). -/
structure InvoiceRow where
  id : Int
  dataDocumentCustomFieldsData : Option (List DocumentCustomField)
deriving DecidableEq

/-- The configured export condition
`config.get("exportOptions", {}).get("export_condition")`: its raw "id" and
"value" entries, each possibly absent. -/
structure ExportCondition where
  id : Option String
  value : Option String
deriving DecidableEq

/-- The configuration `InvoicesStream.post_process` reads: `export_condition`
is `none` when `exportOptions.export_condition` is unset or Python-falsy. -/
structure InvoicesConfig where
  export_condition : Option ExportCondition
deriving DecidableEq

/-- Decimal digits read left to right; `none` when the list is empty or
holds a non-digit character. -/
def digitsToNat : List Char → Option Nat
  | [] => none
  | cs => cs.foldl
      (fun acc c =>
        match acc with
        | none => none
        | some n => if c.isDigit then some (n * 10 + (c.toNat - 48)) else none)
      (some 0)

/-- Python `int(...)` applied to the raw "id" entry: parses an optionally
signed decimal string; `none` models the cases where `int` raises (entry
absent, so `int(None)`, or a non-numeric string). -/
def pyIntCast (s : Option String) : Option Int :=
  match s with
  | none => none
  | some str =>
    match str.data with
    | '-' :: rest => (digitsToNat rest).map (fun n => -(n : Int))
    | cs => (digitsToNat cs).map (fun n => (n : Int))

/-- Python `str(...)` applied to the raw "value" entry: `str(None)` is the
string "None". -/
def pyStr : Option String → String
  | none => "None"
  | some s => s

/-- The local variables of `InvoicesStream.post_process` that are bound when
the `except` handler of streams.py line 123 runs (the `int` cast of line 121
raised before anything else of the branch executed). `cf_id` is assigned
only on line 126, after the handler, while being a local of the function,
so it is not among them. -/
def boundLocalsAtCastFailure : List String :=
  ["self", "row", "context", "export_condition", "e"]

/-- Python resolution of a local-variable reference (here, inside the
handler's f-string): a name that is assigned somewhere in the function but
not yet bound at the point of use raises `UnboundLocalError`. -/
def evalLocal (bound : List String) (name : String) : Except PyExc Unit :=
  if name ∈ bound then .ok () else .error (.unboundLocalError name)

/-- Whether the filter passed the row (`return row`) or dropped it (the
implicit `return None` paths of `post_process`). -/
inductive PostResult where
  | passed (r : InvoiceRow)
  | skipped
deriving DecidableEq

/-- Result of one `post_process` call: the instance attribute
`self.export_condition_id` after the call, the returned value (or the
exception that propagated), and the log lines written. -/
structure PostOutcome where
  export_condition_id : Option Int
  result : Except PyExc PostResult
  logs : List String

/-- Lines 125-142 of streams.py, reached once the export-condition id is
validated and cached as `cf_id`: `allowed_value` is
`str(export_condition.get("value"))`, `record_dcf_ec` keeps the custom
fields whose `documentCustomField.id` equals `cf_id`, and the row is
returned only when the first such field's value equals `allowed_value`.
A row whose `dataDocumentCustomFields.data` is missing makes the
comprehension iterate Python `None` and raise `TypeError`. The skip log is
written only on the no-matching-field branch (lines 139-142); a
present-but-non-matching value falls through to the implicit `return None`
without a log. -/
def filterByCondition (export_condition : ExportCondition) (cf_id : Int)
    (row : InvoiceRow) : Except PyExc PostResult × List String :=
  let allowed_value := pyStr export_condition.value
  match row.dataDocumentCustomFieldsData with
  | none => (.error (.typeError "NoneType object is not iterable"), [])
  | some record_dcf =>
    let record_dcf_ec :=
      record_dcf.filter (fun dcf => dcf.documentCustomFieldId = some cf_id)
    match record_dcf_ec.head? with
    | some first =>
      if first.value = some allowed_value then (.ok (.passed row), [])
      else (.ok .skipped, [])
    | none =>
      (.ok .skipped,
       ["Invoice with id " ++ toString row.id
          ++ " skipped because it did not match the export condition"])

/-- `InvoicesStream.post_process` (streams.py lines 112-144).
`super().post_process(row, context)` is the singer-sdk default, which
returns the row unchanged. `export_condition_id` is the mutable attribute
`self.export_condition_id` (`None` on the class, line 104), threaded in and
out. When no export condition is configured the row is returned as-is
(line 144). Otherwise the id is cast to int once and cached; if the cast
raises, the handler of line 123 builds an f-string that references the local
`cf_id` before its assignment on line 126, so the handler itself raises
`UnboundLocalError` and the intended `userError` message is never built. -/
def post_process (config : InvoicesConfig) (export_condition_id : Option Int)
    (row : InvoiceRow) : PostOutcome :=
  match config.export_condition with
  | none => ⟨export_condition_id, .ok (.passed row), []⟩
  | some export_condition =>
    let logs0 := ["Export condition set in config file, filtering invoices..."]
    match export_condition_id with
    | some cached =>
      let fr := filterByCondition export_condition cached row
      ⟨some cached, fr.1, logs0 ++ fr.2⟩
    | none =>
      match pyIntCast export_condition.id with
      | some n =>
        let fr := filterByCondition export_condition n row
        ⟨some n, fr.1, logs0 ++ fr.2⟩
      | none =>
        match evalLocal boundLocalsAtCastFailure "cf_id" with
        | .error exc => ⟨none, .error exc, logs0⟩
        | .ok _ =>
          ⟨none,
           .error (.userError
             "Error while casting export condition id to an int, please verify the id is correct."),
           logs0⟩

/-- C1: contrary to the claim, a 429 whose body indicates `RateLimit-Type`
"Daily limiter" does NOT abort the run fatally: the `FatalAPIError` raised
inside the `try` block is caught by the blanket `except Exception`, and
`validate_response` goes on to sleep 1 second and raise the retriable error.
This theorem evaluates the code at the failing input. -/
theorem c1_daily_limiter_retried :
    (validate_response 0 dailyLimiterResponse).outcome
      = .raised (.retriableAPIError "Rate limit exceeded") 1
    ∧ ∀ msg wait, (validate_response 0 dailyLimiterResponse).outcome
        ≠ .raised (.fatalAPIError msg) wait := by
  constructor
  · rfl
  · intro msg wait h
    simp [validate_response, dailyLimiterResponse] at h

/-- C6: for a 429 throttle response (not the daily limiter) whose retry-after
hint cannot be parsed, `validate_response` sleeps exactly the 1-second
default, logs a warning about the unparseable retry info, and raises the
retriable error (never the fatal one). -/
theorem c6_unparseable_retry_after (now : Int) (response : HttpResponse)
    (info : RetryInfo)
    (h429 : response.status_code = 429)
    (htext : response.textHasRateLimitType = true)
    (hjson : response.json = some info)
    (hnotdaily : info.rateLimitType ≠ some "Daily limiter")
    (hnoparse : info.rateLimitRetryAfter = none) :
    (validate_response now response).outcome
      = .raised (.retriableAPIError "Rate limit exceeded") 1
    ∧ "Could not parse retry info" ∈ (validate_response now response).logs := by
  simp [validate_response, h429, htext, hjson, hnotdaily, hnoparse]

/-- Witness for C6 at a concrete input: a 429 with a non-daily limiter type
and a missing/unparseable retry-after. -/
theorem c6_witness :
    (validate_response 0 ⟨429, true, some ⟨some "Request limiter", none⟩⟩).outcome
      = .raised (.retriableAPIError "Rate limit exceeded") 1
    ∧ "Could not parse retry info"
        ∈ (validate_response 0 ⟨429, true, some ⟨some "Request limiter", none⟩⟩).logs :=
  c6_unparseable_retry_after 0 ⟨429, true, some ⟨some "Request limiter", none⟩⟩
    ⟨some "Request limiter", none⟩ rfl rfl rfl (by decide) rfl

/-- C7: for a 429 (not the daily limiter) carrying a parseable retry-after
timestamp `t`, the sleep before raising the retriable error is exactly
`max 1 (t - now)` seconds; in particular a timestamp in the past yields the
1-second floor. -/
theorem c7_retry_after_wait (now : Int) (response : HttpResponse)
    (info : RetryInfo) (t : Int)
    (h429 : response.status_code = 429)
    (htext : response.textHasRateLimitType = true)
    (hjson : response.json = some info)
    (hnotdaily : info.rateLimitType ≠ some "Daily limiter")
    (hparse : info.rateLimitRetryAfter = some t) :
    (validate_response now response).outcome
      = .raised (.retriableAPIError "Rate limit exceeded") (max 1 (t - now))
    ∧ (t ≤ now →
        (validate_response now response).outcome
          = .raised (.retriableAPIError "Rate limit exceeded") 1) := by
  have hmax : max (t - now) 1 = max 1 (t - now) := max_comm _ _
  constructor
  · simp [validate_response, h429, htext, hjson, hnotdaily, hparse, hmax]
  · intro hpast
    have h1 : max 1 (t - now) = 1 := max_eq_left (by omega)
    simp [validate_response, h429, htext, hjson, hnotdaily, hparse, hmax, h1]

/-- Helper: one unfolding step of the pagination loop on a non-empty
response list. -/
theorem runPages_cons (page previous_token : Option Nat) (r : PageResponse)
    (rs : List PageResponse) :
    runPages page previous_token (r :: rs)
      = match get_next_page_token page r previous_token with
        | .error e => .error e
        | .ok (page1, token) =>
          match token with
          | none => .ok 1
          | some 0 => .ok 1
          | some (t + 1) =>
            match runPages page1 (some (t + 1)) rs with
            | .error e => .error e
            | .ok n => .ok (n + 1) := rfl

/-- Helper: running the pagination loop from page state `c` over `n`
responses reporting `current_page = c, ..., c + n - 1` with total pages `tp`
fetches exactly `n` pages and then terminates, whenever `c + n = tp + 1`. -/
theorem runPages_increasing (tp : Nat) :
    ∀ n c prev, 1 ≤ n → 1 ≤ c → c + n = tp + 1 →
      runPages (some c) prev (increasingPages tp c n) = .ok n := by
  intro n
  induction n with
  | zero => intro c prev h1 _ _; omega
  | succ n ih =>
    intro c prev _ hc hsum
    cases n with
    | zero =>
      have hceq : c = tp := by omega
      subst hceq
      simp [increasingPages, runPages, get_next_page_token]
    | succ m =>
      have hne : c ≠ tp := by omega
      have hrec := ih (c + 1) (some (c + 1)) (by omega) (by omega) (by omega)
      have hstep : get_next_page_token (some c) ⟨some ⟨c, tp⟩⟩ prev
          = .ok (some (c + 1), some (c + 1)) := by
        simp [get_next_page_token, hne]
      show runPages (some c) prev
          (⟨some ⟨c, tp⟩⟩ :: increasingPages tp (c + 1) (m + 1)) = .ok (m + 1 + 1)
      rw [runPages_cons, hstep]
      show (match runPages (some (c + 1)) (some (c + 1))
              (increasingPages tp (c + 1) (m + 1)) with
            | Except.error e => Except.error e
            | Except.ok n => (Except.ok (n + 1) : Except PyExc Nat))
          = Except.ok (m + 1 + 1)
      rw [hrec]

/-- C3 counterexample: a response carrying pagination metadata with
`total_pages = 0` but `current_page = 1` does NOT make the cursor terminate:
`get_next_page_token` increments the page and returns token 2, so the loop
keeps requesting. -/
theorem c3_counterexample :
    get_next_page_token (some 1) ⟨some ⟨1, 0⟩⟩ none = .ok (some 2, some 2)
    ∧ (some 2 : Option Nat) ≠ none :=
  ⟨rfl, by decide⟩

/-- C3 amended: for a sequence of pagination responses with `current_page`
strictly increasing from 1 up to `total_pages = tp` with `tp ≥ 1`, the cursor
drives exactly `tp` page fetches and then terminates; a response with
`total_pages = 0` makes the cursor terminate immediately only when its
`current_page` is also 0 (the cursor terminates exactly when
`current_page = total_pages`); with `current_page = 1` and `total_pages = 0`
it instead yields token 2 and keeps looping. -/
theorem c3_amended :
    (∀ tp, 1 ≤ tp → runPages (some 1) none (pageSeq tp) = .ok tp)
    ∧ get_next_page_token (some 1) ⟨some ⟨0, 0⟩⟩ none = .ok (none, none)
    ∧ get_next_page_token (some 1) ⟨some ⟨1, 0⟩⟩ none = .ok (some 2, some 2) := by
  refine ⟨?_, rfl, rfl⟩
  intro tp h
  exact runPages_increasing tp tp 1 none h (by omega) (by omega)

/-- C4: with no pagination metadata in the body, `get_next_page_token`
returns the no-further-pages sentinel `None` (leaving `self.page` alone);
with metadata present and `current_page ≠ total_pages`, under the run
invariant that `self.page` equals the previously returned token (page 1 for
the first call, where `previous_token` is `None`), the returned token is
`previous_token + 1`. -/
theorem c4_next_token (page : Option Nat) (response : PageResponse)
    (previous_token : Option Nat) :
    (response.meta = none →
      get_next_page_token page response previous_token = .ok (page, none))
    ∧ (∀ p, response.meta = some p → p.current_page ≠ p.total_pages →
        page = some (previous_token.getD 1) →
        get_next_page_token page response previous_token
          = .ok (some (previous_token.getD 1 + 1),
                 some (previous_token.getD 1 + 1))) := by
  constructor
  · intro h
    simp [get_next_page_token, h]
  · intro p hm hne hpage
    subst hpage
    simp [get_next_page_token, hm, hne]

/-- C2 counterexample: with configured start date 10 and persisted bookmark
5 the watermark attached to the request is 5, not the later of the two
(`max 10 5 = 10`): `get_starting_time` prefers the bookmark unconditionally. -/
theorem c2_counterexample :
    (get_url_params true (some 10) (some 5) none).modifiedSince = some 5
    ∧ (some 5 : Option Int) ≠ some (max (10 : Int) 5) :=
  ⟨rfl, by decide⟩

/-- C2 amended: the effective lower bound attached to a request equals the
persisted last-seen replication-key value when one is present, otherwise the
configured start timestamp; if both are absent (or the stream has no
replication key) no watermark parameter is added to the request. -/
theorem c2_amended (start_date rep_key : Option Int) (tok : Option Nat) :
    (rep_key = none → start_date = none →
      (get_url_params true start_date rep_key tok).modifiedSince = none)
    ∧ (∀ v, rep_key = some v →
        (get_url_params true start_date rep_key tok).modifiedSince = some v)
    ∧ (rep_key = none →
        (get_url_params true start_date rep_key tok).modifiedSince = start_date)
    ∧ (get_url_params false start_date rep_key tok).modifiedSince = none := by
  refine ⟨?_, ?_, ?_, ?_⟩
  · intro h1 h2
    simp [get_url_params, get_starting_time, h1, h2]
  · intro v hv
    simp [get_url_params, get_starting_time, hv]
  · intro h1
    cases start_date <;> simp [get_url_params, get_starting_time, h1]
  · simp [get_url_params]

/-- Witness for C7 at a concrete input: retry-after 5 seconds in the past of
`now = 100`, so the wait is the 1-second floor `max 1 (95 - 100) = 1`. -/
theorem c7_witness :
    (validate_response 100 ⟨429, true, some ⟨some "Request limiter", some 95⟩⟩).outcome
      = .raised (.retriableAPIError "Rate limit exceeded") (max 1 (95 - 100))
    ∧ ((95 : Int) ≤ 100 →
        (validate_response 100 ⟨429, true, some ⟨some "Request limiter", some 95⟩⟩).outcome
          = .raised (.retriableAPIError "Rate limit exceeded") 1) :=
  c7_retry_after_wait 100 ⟨429, true, some ⟨some "Request limiter", some 95⟩⟩
    ⟨some "Request limiter", some 95⟩ 95 rfl rfl rfl (by decide) rfl

/-- Helper: every send of a sequential run happens at least one second after
the run's start of its first sleep, and consecutive sends are at least one
second apart, provided response delays are non-negative. -/
theorem sendTimes_spacing (ds : List Int) : ∀ t0 : Int, (∀ d ∈ ds, 0 ≤ d) →
    (∀ x ∈ sendTimes t0 ds, t0 + 1 ≤ x)
    ∧ (sendTimes t0 ds).Chain' (fun a b => a + 1 ≤ b) := by
  induction ds with
  | nil =>
    intro t0 _
    simp [sendTimes]
  | cons d ds ih =>
    intro t0 hd
    have hd0 : 0 ≤ d := hd d (List.mem_cons_self d ds)
    have hds : ∀ x ∈ ds, 0 ≤ x := fun x hx => hd x (List.mem_cons_of_mem d hx)
    obtain ⟨hlb, hch⟩ := ih (requestSendTime t0 + d) hds
    rw [sendTimes]
    constructor
    · intro x hx
      rcases List.mem_cons.mp hx with h | h
      · simp [h, requestSendTime]
      · have := hlb x h
        simp only [requestSendTime] at this ⊢
        omega
    · apply List.Chain'.cons' hch
      intro y hy
      have hmem : y ∈ sendTimes (requestSendTime t0 + d) ds :=
        List.mem_of_mem_head? hy
      have := hlb y hmem
      simp only [requestSendTime] at this ⊢
      omega

/-- C5 counterexample: a 1-second wait IS imposed before the very first send:
entering `_request` at time 0, the send happens at time 1, not time 0, so the
wait before the first send is 1 rather than 0. -/
theorem c5_counterexample :
    waitBeforeSend 0 = 1 ∧ ((1 : Int) = 0 → False) :=
  ⟨rfl, by decide⟩

/-- C5 amended: `_request` sleeps exactly 1 second before every outbound
send, including the very first one after any idle period; consequently, in a
sequential run with non-negative response delays, any two consecutive sends
are at least 1 second apart. -/
theorem c5_request_spacing (t0 : Int) (ds : List Int)
    (hd : ∀ d ∈ ds, 0 ≤ d) :
    (sendTimes t0 ds).Chain' (fun a b => a + 1 ≤ b)
    ∧ ∀ t, waitBeforeSend t = 1 := by
  refine ⟨(sendTimes_spacing ds t0 hd).2, ?_⟩
  intro t
  simp [waitBeforeSend, requestSendTime]

/-- Witness for C5 at a concrete input: two requests entered from time 0 with
an instantaneous response in between. -/
theorem c5_witness :
    (sendTimes 0 [0, 0]).Chain' (fun a b => a + 1 ≤ b)
    ∧ ∀ t, waitBeforeSend t = 1 :=
  c5_request_spacing 0 [0, 0] (by intro d hd; simp at hd; omega)

/-- Helper: when the export-condition filter passes, the row it returns is
the input row itself. -/
theorem filterByCondition_passed (ec : ExportCondition) (k : Int)
    (row r : InvoiceRow)
    (h : (filterByCondition ec k row).1 = .ok (.passed r)) : r = row := by
  rcases hd : row.dataDocumentCustomFieldsData with _ | dcfs
  · simp [filterByCondition, hd] at h
  · rcases hh : ((dcfs.filter
        (fun dcf => dcf.documentCustomFieldId = some k)).head?) with _ | first
    · simp [filterByCondition, hd, hh] at h
    · by_cases hv : first.value = some (pyStr ec.value)
      · simp [filterByCondition, hd, hh, hv] at h
        exact h.symm
      · simp [filterByCondition, hd, hh, hv] at h

/-- C8: when an export condition is configured whose id casts to `n`, an
invoice record carrying the custom-field list `dcfs` is passed (returned
unchanged) if and only if the first custom field whose id matches `n` has a
value equal to the configured allowed value; when no custom field matches,
the record is dropped and the skip reason is logged. -/
theorem c8_export_condition_filter (ec : ExportCondition) (n : Int)
    (row : InvoiceRow) (dcfs : List DocumentCustomField)
    (hid : pyIntCast ec.id = some n)
    (hdata : row.dataDocumentCustomFieldsData = some dcfs) :
    ((post_process ⟨some ec⟩ none row).result = .ok (.passed row) ↔
      (∃ first,
        (dcfs.filter (fun d => d.documentCustomFieldId = some n)).head?
          = some first
        ∧ first.value = some (pyStr ec.value)))
    ∧ ((dcfs.filter (fun d => d.documentCustomFieldId = some n)) = [] →
        (post_process ⟨some ec⟩ none row).result = .ok .skipped
        ∧ ("Invoice with id " ++ toString row.id
            ++ " skipped because it did not match the export condition")
          ∈ (post_process ⟨some ec⟩ none row).logs) := by
  have hpp : (post_process ⟨some ec⟩ none row).result
      = (filterByCondition ec n row).1 := by
    simp [post_process, hid]
  have hpl : (post_process ⟨some ec⟩ none row).logs
      = "Export condition set in config file, filtering invoices..."
          :: (filterByCondition ec n row).2 := by
    simp [post_process, hid]
  constructor
  · constructor
    · intro hres
      rw [hpp] at hres
      rcases hh : ((dcfs.filter
          (fun d => d.documentCustomFieldId = some n)).head?) with _ | first
      · exfalso
        simp [filterByCondition, hdata, hh] at hres
      · by_cases hv : first.value = some (pyStr ec.value)
        · exact ⟨first, hh, hv⟩
        · exfalso
          simp [filterByCondition, hdata, hh, hv] at hres
    · rintro ⟨first, hfirst, hval⟩
      rw [hpp]
      simp [filterByCondition, hdata, hfirst, hval]
  · intro hnil
    have hh : ((dcfs.filter
        (fun d => d.documentCustomFieldId = some n)).head?) = none := by
      rw [hnil]
      rfl
    constructor
    · rw [hpp]
      simp [filterByCondition, hdata, hh]
    · rw [hpl]
      simp [filterByCondition, hdata, hh]

/-- Witness for C8 at a concrete input: configured id "7" (cast 7), allowed
value "yes", and a record whose only custom field has id 7 and value "yes". -/
theorem c8_witness :
    ((post_process ⟨some ⟨some "7", some "yes"⟩⟩ none
        ⟨1, some [⟨some 7, some "yes"⟩]⟩).result
      = .ok (.passed ⟨1, some [⟨some 7, some "yes"⟩]⟩) ↔
      (∃ first,
        (([⟨some 7, some "yes"⟩] : List DocumentCustomField).filter
            (fun d => d.documentCustomFieldId = some 7)).head? = some first
        ∧ first.value = some (pyStr (some "yes"))))
    ∧ ((([⟨some 7, some "yes"⟩] : List DocumentCustomField).filter
          (fun d => d.documentCustomFieldId = some 7)) = [] →
        (post_process ⟨some ⟨some "7", some "yes"⟩⟩ none
            ⟨1, some [⟨some 7, some "yes"⟩]⟩).result = .ok .skipped
        ∧ ("Invoice with id " ++ toString (1 : Int)
            ++ " skipped because it did not match the export condition")
          ∈ (post_process ⟨some ⟨some "7", some "yes"⟩⟩ none
              ⟨1, some [⟨some 7, some "yes"⟩]⟩).logs) :=
  c8_export_condition_filter ⟨some "7", some "yes"⟩ 7
    ⟨1, some [⟨some 7, some "yes"⟩]⟩ [⟨some 7, some "yes"⟩] rfl rfl

/-- C9: the export-condition filter is idempotent and free of hidden state
effects on the decision: if a call passes a record, it returns that record
itself, and re-applying `post_process` to the returned record with the cache
attribute the first call left behind reproduces the first outcome exactly
(same pass decision, same record, same cache). -/
theorem c9_filter_idempotent (config : InvoicesConfig) (cache : Option Int)
    (row r : InvoiceRow)
    (hpass : (post_process config cache row).result = .ok (.passed r)) :
    r = row
    ∧ post_process config
        (post_process config cache row).export_condition_id r
      = post_process config cache row := by
  rcases hec : config.export_condition with _ | ec
  · have h1 : post_process config cache row = ⟨cache, .ok (.passed row), []⟩ := by
      simp [post_process, hec]
    rw [h1] at hpass
    have hr : r = row := by
      simpa using hpass.symm
    subst hr
    refine ⟨rfl, ?_⟩
    rw [h1]
    simp [post_process, hec]
  · cases cache with
    | none =>
      rcases hcast : pyIntCast ec.id with _ | m
      · exfalso
        simp [post_process, hec, hcast, evalLocal, boundLocalsAtCastFailure]
          at hpass
      · have h1 : post_process config none row
            = ⟨some m, (filterByCondition ec m row).1,
               "Export condition set in config file, filtering invoices..."
                 :: (filterByCondition ec m row).2⟩ := by
          simp [post_process, hec, hcast]
        rw [h1] at hpass
        have hr : r = row := filterByCondition_passed ec m row r hpass
        subst hr
        refine ⟨rfl, ?_⟩
        rw [h1]
        simp [post_process, hec]
    | some k =>
      have h1 : post_process config (some k) row
          = ⟨some k, (filterByCondition ec k row).1,
             "Export condition set in config file, filtering invoices..."
               :: (filterByCondition ec k row).2⟩ := by
        simp [post_process, hec]
      rw [h1] at hpass
      have hr : r = row := filterByCondition_passed ec k row r hpass
      subst hr
      refine ⟨rfl, ?_⟩
      rw [h1]
      simp [post_process, hec]

/-- Witness for C9 at a concrete input: a configured export condition with
id "7" and value "yes", an empty cache, and a record the filter passes. -/
theorem c9_witness :
    (⟨1, some [⟨some 7, some "yes"⟩]⟩ : InvoiceRow)
      = ⟨1, some [⟨some 7, some "yes"⟩]⟩
    ∧ post_process ⟨some ⟨some "7", some "yes"⟩⟩
        (post_process ⟨some ⟨some "7", some "yes"⟩⟩ none
          ⟨1, some [⟨some 7, some "yes"⟩]⟩).export_condition_id
        ⟨1, some [⟨some 7, some "yes"⟩]⟩
      = post_process ⟨some ⟨some "7", some "yes"⟩⟩ none
          ⟨1, some [⟨some 7, some "yes"⟩]⟩ :=
  c9_filter_idempotent ⟨some ⟨some "7", some "yes"⟩⟩ none
    ⟨1, some [⟨some 7, some "yes"⟩]⟩ ⟨1, some [⟨some 7, some "yes"⟩]⟩ rfl

/-- C10: when the configured export-condition id does not cast to an int
(and the cache attribute is still unset), the error branch of `post_process`
itself fails with an unbound-variable error on `cf_id`, so the intended
descriptive configuration-error message is never produced. -/
theorem c10_error_branch_unbound (ec : ExportCondition) (row : InvoiceRow)
    (hbad : pyIntCast ec.id = none) :
    (post_process ⟨some ec⟩ none row).result
      = .error (.unboundLocalError "cf_id")
    ∧ ∀ msg, (post_process ⟨some ec⟩ none row).result
        ≠ .error (.userError msg) := by
  have h : (post_process ⟨some ec⟩ none row).result
      = .error (.unboundLocalError "cf_id") := by
    simp [post_process, hbad, evalLocal, boundLocalsAtCastFailure]
  refine ⟨h, ?_⟩
  intro msg hcontra
  rw [h] at hcontra
  simp at hcontra

/-- Witness for C10 at a concrete input: the configured id "abc" is not an
int, and the record is irrelevant. -/
theorem c10_witness :
    (post_process ⟨some ⟨some "abc", none⟩⟩ none ⟨1, none⟩).result
      = .error (.unboundLocalError "cf_id")
    ∧ ∀ msg, (post_process ⟨some ⟨some "abc", none⟩⟩ none ⟨1, none⟩).result
        ≠ .error (.userError msg) :=
  c10_error_branch_unbound ⟨some "abc", none⟩ ⟨1, none⟩ rfl
